import Mathlib

/-!
Verification development for the RestGPT agent core.

We shallowly embed the two core modules, `model/caller.py` (the Caller
execution step with its action parser, HTTP dispatch, documentation shaping
and response-interpretation plumbing) and `model/rest_gpt.py` (the
Orchestrator plan/select/call/record loop), as executable Lean functions.
External collaborators (the LLM completion service, the HTTP requests
wrapper, `json.loads`, `yaml.dump`, the tiktoken encoder and the
endpoint matcher `get_matched_endpoint`, which lives outside the embedded
modules) are passed in as function parameters, exactly at the boundaries
where the Python code calls them.  Python exceptions are modelled by an
`Except PyErr` result; machine text is modelled by Lean `String`
(`List Char` underneath).
-/

/-- Python exception kinds that the embedded code can raise. -/
inductive PyErr where
  | valueError
  | typeError
  | keyError
  | indexError
  | attributeError
  | notImplementedError
  | jsonDecodeError
  | nameError
deriving DecidableEq, Repr

/-! ## Python string primitives (on `List Char`) -/

/-- Python's `\s` / default `str.strip` whitespace set (ASCII). -/
def isPyWs (c : Char) : Bool :=
  c = ' ' || c = '\t' || c = '\n' || c = '\r' || c = '\x0b' || c = '\x0c'

/-- Whether `needle` is a prefix of `hay`. -/
def startsWithL : List Char → List Char → Bool
  | [], _ => true
  | _ :: _, [] => false
  | a :: as, b :: bs => a = b && startsWithL as bs

/-- Python `needle in hay` (substring occurrence). -/
def containsL (needle : List Char) : List Char → Bool
  | [] => startsWithL needle []
  | s@(_ :: t) => startsWithL needle s || containsL needle t

/-- Split around the first occurrence of `sep`: `(before, after)`. -/
def splitFirstL (sep : List Char) : List Char → Option (List Char × List Char)
  | [] => none
  | s@(c :: t) =>
    if startsWithL sep s then some ([], s.drop sep.length)
    else (splitFirstL sep t).map fun p => (c :: p.1, p.2)

/-- Fuel-driven scan to the text after the last occurrence of `sep`
(`sep` is always a fixed non-empty literal at use sites, so the fuel
`s.length + 1` always suffices). -/
def afterLastAuxL (sep : List Char) : Nat → List Char → List Char
  | 0, s => s
  | n + 1, s =>
    match splitFirstL sep s with
    | none => s
    | some p => afterLastAuxL sep n p.2

/-- Python `s.split(sep)[-1]`: the text after the last occurrence of `sep`. -/
def afterLastL (sep s : List Char) : List Char := afterLastAuxL sep (s.length + 1) s

/-- Drop the longest suffix whose characters satisfy `p`. -/
def dropEndWhile (p : Char → Bool) (l : List Char) : List Char :=
  (l.reverse.dropWhile p).reverse

/-- Python `s.strip()`. -/
def pyStripL (l : List Char) : List Char := dropEndWhile isPyWs (l.dropWhile isPyWs)

/-- Python `s.strip(c)` for a one-character strip set. -/
def stripCharL (c : Char) (l : List Char) : List Char :=
  dropEndWhile (· = c) (l.dropWhile (· = c))

/-- Python `s.find(c)` for a single character: first index or `-1`. -/
def pyFindCharL (c : Char) (l : List Char) : Int :=
  match l.findIdx? (· = c) with
  | some i => (i : Int)
  | none => -1

/-- Python `s.rfind(c)` for a single character: last index or `-1`. -/
def pyRfindCharL (c : Char) (l : List Char) : Int :=
  match l.reverse.findIdx? (· = c) with
  | some i => (l.length : Int) - 1 - (i : Int)
  | none => -1

/-- Normalise a Python slice bound to an absolute index into a list of
length `n` (negative indices count from the end, then clamp). -/
def pySliceIdx (n : Nat) (i : Int) : Nat :=
  if i < 0 then (i + n).toNat else min i.toNat n

/-- Python `s[a:b]`. -/
def pySliceL (l : List Char) (a b : Int) : List Char :=
  let lo := pySliceIdx l.length a
  let hi := pySliceIdx l.length b
  (l.drop lo).take (hi - lo)

/-- Fuel-driven body of Python `s.replace(old, new)` for non-empty `old`. -/
def pyReplaceAux (old new : List Char) : Nat → List Char → List Char
  | 0, s => s
  | _ + 1, [] => []
  | n + 1, s@(c :: t) =>
    if startsWithL old s then new ++ pyReplaceAux old new n (s.drop old.length)
    else c :: pyReplaceAux old new n t

/-- Python `s.replace(old, new)` (for empty `old`, Python interleaves
`new` around every character). -/
def pyReplaceL (s old new : List Char) : List Char :=
  if old = [] then new ++ s.flatMap (fun c => c :: new)
  else pyReplaceAux old new s.length s

/-- Python `s.replace(old, new)` on `String`. -/
def pyReplace (s old new : String) : String :=
  String.mk (pyReplaceL s.data old.data new.data)

/-- Fuel-driven body of Python `s.split(sep)` for non-empty `sep`. -/
def splitOnAuxL (sep : List Char) : Nat → List Char → List (List Char)
  | 0, s => [s]
  | n + 1, s =>
    match splitFirstL sep s with
    | none => [s]
    | some p => p.1 :: splitOnAuxL sep n p.2

/-- Python `s.split(sep)` for non-empty `sep` (always yields at least
one part). -/
def pySplit (s sep : String) : List String :=
  (splitOnAuxL sep.data (s.length + 1) s.data).map String.mk

/-- Python `s.split(sep)[-1]` on `String` (`split` of a non-empty
separator never yields an empty list, so the default is never used). -/
def pyLastField (s sep : String) : String := ((pySplit s sep).getLast?).getD s

/-! ## Action Parser: `Caller._get_action_and_input` -/

/-- The completion marker checked first by the parser. -/
def execResultMarker : String := "Execution Result:"

/-- The literal `Operation:`. -/
def operationLit : String := "Operation:"

/-- The literal `Input:`. -/
def inputLit : String := "Input:"

/-- Scan for the body of the regex `\s*(.*?)[\n]*Input:\s*(.*)` (DOTALL)
after an `Operation:` occurrence whose following whitespace has already
been dropped: find the shortest lazy group 1 such that, after a run of
newlines, the literal `Input:` follows; group 2 is the rest of the text
after `Input:` and its following whitespace. -/
def scanForInput : List Char → Option (List Char × List Char)
  | [] => none
  | u@(c :: t) =>
    let u2 := u.dropWhile (fun x => x = '\n')
    if startsWithL inputLit.data u2 then
      some ([], (u2.drop inputLit.length).dropWhile isPyWs)
    else (scanForInput t).map fun p => (c :: p.1, p.2)

/-- Model of `re.search(r"Operation:[\s]*(.*?)[\n]*Input:[\s]*(.*)", s, re.DOTALL)`:
try each `Operation:` occurrence from the left; greedy `\s*` always
commits to the maximal whitespace run (complete here, because `Input:`
starts with a non-whitespace character), then group 1 is lazy. -/
def findOpMatch : List Char → Option (List Char × List Char)
  | [] => none
  | s@(_ :: t) =>
    if startsWithL operationLit.data s then
      match scanForInput ((s.drop operationLit.length).dropWhile isPyWs) with
      | some r => some r
      | none => findOpMatch t
    else findOpMatch t

/-- Embeds `Caller._get_action_and_input` (caller.py lines 193-217): completion
marker first (split on its last occurrence, stripped); otherwise the
`Operation:`/`Input:` regex; the action token must be one of
GET/POST/DELETE/PUT, else `NotImplementedError`; the input block is
stripped of whitespace and backticks and cut to the substring between the
first `{` and the last `}` with Python slice semantics. -/
def get_action_and_input (llmOutput : String) : Except PyErr (String × String) :=
  if containsL execResultMarker.data llmOutput.data then
    .ok ("DONE", String.mk (pyStripL (afterLastL execResultMarker.data llmOutput.data)))
  else
    match findOpMatch llmOutput.data with
    | none => .error .valueError
    | some (g1, g2) =>
      let action := String.mk (pyStripL g1)
      if action = "GET" || action = "POST" || action = "DELETE" || action = "PUT" then
        let ai := stripCharL (Char.ofNat 96) (pyStripL g2)
        let lb := pyFindCharL '{' ai
        let rb := pyRfindCharL '}' ai
        .ok (action, String.mk (pySliceL ai lb (rb + 1)))
      else .error .notImplementedError

example : get_action_and_input "Operation: GET\nInput: \x7b\"url\": \"u\"\x7d" =
    .ok ("GET", "\x7b\"url\": \"u\"\x7d") := rfl
example : get_action_and_input "Operation: PATCH\nInput: \x7b\"url\": \"u\"\x7d" =
    .error .notImplementedError := rfl
example : get_action_and_input "stuff Execution Result:  42 " = .ok ("DONE", "42") := rfl

/-! ## JSON-like Python values and dict operations -/

/-- A Python value produced by `json.loads` / stored in the reduced
OpenAPI documentation: strings, integers, booleans, lists and dicts
(dicts keep insertion order, later duplicate keys win). -/
inductive JVal where
  | str : String → JVal
  | num : Int → JVal
  | bool : Bool → JVal
  | arr : List JVal → JVal
  | obj : List (String × JVal) → JVal

/-- Look up a key in a Python dict (later bindings shadow earlier ones). -/
def lookupLast (l : List (String × JVal)) (k : String) : Option JVal :=
  ((l.filter (fun p => p.1 == k)).getLast?).map (fun p => p.2)

/-- Python `d.get(k)`: `None` when absent; `AttributeError` when the
receiver is not a dict. -/
def pyDictGet (v : JVal) (k : String) : Except PyErr (Option JVal) :=
  match v with
  | .obj l => .ok (lookupLast l k)
  | _ => .error .attributeError

/-- Python `v[k]` for a string key: `KeyError` when a dict lacks the key,
a `TypeError`-style failure on any non-dict receiver. -/
def pyGetItem (v : JVal) (k : String) : Except PyErr JVal :=
  match v with
  | .obj l =>
    match lookupLast l k with
    | some x => .ok x
    | none => .error .keyError
  | _ => .error .typeError

/-- Python `k in v`: key membership for dicts, substring for strings,
element membership for lists, `TypeError` otherwise. -/
def pyIn (k : String) (v : JVal) : Except PyErr Bool :=
  match v with
  | .obj l => .ok (l.any (fun p => p.1 == k))
  | .str s => .ok (containsL k.data s.data)
  | .arr l => .ok (l.any (fun x => match x with | .str s => s == k | _ => false))
  | _ => .error .typeError

/-- Set a key in a Python dict (update in place if present, append
otherwise, preserving insertion order). -/
def setAssoc (l : List (String × JVal)) (k : String) (x : JVal) :
    List (String × JVal) :=
  if l.any (fun p => p.1 == k) then l.map (fun p => if p.1 == k then (k, x) else p)
  else l ++ [(k, x)]

/-- Python `v[k] = x`. -/
def pySetItem (v : JVal) (k : String) (x : JVal) : Except PyErr JVal :=
  match v with
  | .obj l => .ok (.obj (setAssoc l k x))
  | _ => .error .typeError

/-- Python `v.pop(k)` (the popped value is discarded at all use sites). -/
def pyPop (v : JVal) (k : String) : Except PyErr JVal :=
  match v with
  | .obj l =>
    if l.any (fun p => p.1 == k) then .ok (.obj (l.filter (fun p => p.1 != k)))
    else .error .keyError
  | _ => .error .attributeError

/-- Python truthiness of a `JVal`. -/
def pyTruthy : JVal → Bool
  | .str s => s != ""
  | .num n => n != 0
  | .bool b => b
  | .arr l => !l.isEmpty
  | .obj l => !l.isEmpty

/-- In-place nested assignment `v[k₁]...[kₙ] = x`, expressed functionally:
each step reads the child (`KeyError`/`TypeError` exactly as Python
would) and writes back the updated child. -/
def setNested (v : JVal) (path : List String) (x : JVal) : Except PyErr JVal :=
  match path with
  | [] => .ok x
  | k :: rest => do
    let child ← pyGetItem v k
    let child2 ← setNested child rest x
    pySetItem v k child2

/-! ## The Caller's collaborators and state -/

/-- One HTTP dispatch, mirroring the four `requests_wrapper` call shapes
in `Caller._get_response` (GET with or without a `params` keyword; POST
and PUT with `params`+`data`; DELETE with `params`+`json`). -/
inductive HttpCall where
  | get : Option JVal → Option JVal → HttpCall
  | post : JVal → Option JVal → Option JVal → HttpCall
  | put : JVal → Option JVal → Option JVal → HttpCall
  | delete : JVal → Option JVal → Option JVal → HttpCall

/-- What the requests wrapper hands back: a `requests.models.Response`
object carrying a status code and a text body, a plain string (the
`TextRequestsWrapper` behaviour), or anything else
(`NotImplementedError` in the source). -/
inductive HttpResp where
  | resp : Nat → String → HttpResp
  | str : String → HttpResp
  | other : HttpResp

/-- Inputs handed to the Response Interpreter chain
(`self.parser_class(llm, api_path, api_doc)` plus the `invoke` payload). -/
structure ParserIn where
  apiPath : String
  apiDoc : Option JVal
  query : Option JVal
  responseDescription : JVal
  apiParam : JVal
  json : String

/-- The Caller's external collaborators, passed as pure functions. A pure
function applied twice to the same arguments denotes a single observed
interaction with the collaborator. -/
structure Collab where
  /-- The prompted completion service: base url, docs excerpt, plan,
  background ↦ completion text. -/
  llmComplete : String → String → String → String → String
  /-- The HTTP requests wrapper. -/
  http : HttpCall → HttpResp
  /-- `json.loads`, `none` for a `JSONDecodeError`. -/
  jsonLoads : String → Option JVal
  /-- `get_matched_endpoint` from `utils` (outside the embedded module):
  `none` models Python `None`, `some l` a ranked candidate list. -/
  matchEndpoint : String → Option (List String)
  /-- `yaml.dump`. -/
  yamlDump : JVal → String
  /-- tiktoken `encoder.encode`. -/
  encode : String → List Nat
  /-- tiktoken `encoder.decode`. -/
  decode : List Nat → String
  /-- The Response Interpreter chain's `invoke(...)["result"]`. -/
  parserChain : ParserIn → String

/-- The reduced OpenAPI spec: `{servers: [...], endpoints: [(name,
summary, docs)]}`. -/
structure ApiSpec where
  servers : List JVal
  endpoints : List (String × Option String × JVal)

/-- The Caller's fields relevant to execution; `docsByName` is the Spec
Index mapping built in `Caller.__init__` (`{name: docs for name, _, docs
in api_spec.endpoints}`). -/
structure CallerSt where
  apiSpec : ApiSpec
  scenario : String
  withResponse : Bool
  docsByName : List (String × JVal)

/-- Embeds `Caller.__init__` (caller.py lines 140-142): build the name→docs
mapping from the spec's endpoint triples. -/
def mkDocsByName (eps : List (String × Option String × JVal)) : List (String × JVal) :=
  eps.map (fun e => (e.1, e.2.2))

/-- Construct a Caller state the way `Caller.__init__` does. -/
def mkCaller (spec : ApiSpec) (scen : String) (withResp : Bool) : CallerSt :=
  { apiSpec := spec, scenario := scen, withResponse := withResp,
    docsByName := mkDocsByName spec.endpoints }

/-- Embeds `self.api_spec.servers[0]["url"]` (caller.py line 270). -/
def getServerUrl (sp : ApiSpec) : Except PyErr String := do
  let s0 ← (match sp.servers.head? with
    | none => Except.error PyErr.indexError
    | some s => pure s)
  let u ← pyGetItem s0 "url"
  match u with
  | .str s => pure s
  | _ => Except.error PyErr.typeError

/-- Embeds `self.endpoint_docs_by_name.get(name)`. -/
def dictGet (l : List (String × JVal)) (k : String) : Option JVal :=
  lookupLast l k

/-! ## `Caller._get_response` -/

/-- The 5-tuple `_get_response` returns on its normal path. -/
structure RespTuple where
  responseText : String
  params : Option JVal
  requestBody : Option JVal
  desc : JVal
  query : Option JVal

/-- What `_get_response` returns: the normal 5-tuple or — on a
`requests.models.Response` with status ≠ 200 — a bare string
(caller.py line 260 `return response.text`). -/
inductive GetRespRet where
  | bare : String → GetRespRet
  | tup : RespTuple → GetRespRet

/-- Embeds `Caller._get_response` (caller.py lines 219-267): parse the action
input as JSON (a decode failure is re-raised as `ValueError`), read the
description and output instructions, dispatch on the four supported
verbs, then normalise the wrapper's response. -/
def get_response (c : Collab) (action actionInput : String) :
    Except PyErr GetRespRet := do
  let data ← (match c.jsonLoads actionInput with
    | none => Except.error PyErr.valueError
    | some d => pure d)
  let descOpt ← pyDictGet data "description"
  let desc := descOpt.getD (.str "No description")
  let query ← pyDictGet data "output_instructions"
  let dispatch ← (
    if action = "GET" then do
      let hasParams ← pyIn "params" data
      let url ← pyDictGet data "url"
      if hasParams then do
        let p ← pyDictGet data "params"
        pure (c.http (.get url p), p, (none : Option JVal))
      else
        pure (c.http (.get url none), (none : Option JVal), (none : Option JVal))
    else if action = "POST" then do
      let p ← pyDictGet data "params"
      let b ← pyDictGet data "data"
      let url ← pyGetItem data "url"
      pure (c.http (.post url p b), p, b)
    else if action = "PUT" then do
      let p ← pyDictGet data "params"
      let b ← pyDictGet data "data"
      let url ← pyGetItem data "url"
      pure (c.http (.put url p b), p, b)
    else if action = "DELETE" then do
      let p ← pyDictGet data "params"
      let b ← pyDictGet data "data"
      let url ← pyGetItem data "url"
      pure (c.http (.delete url p b), p, b)
    else Except.error PyErr.notImplementedError)
  match dispatch with
  | (resp, params, requestBody) =>
    match resp with
    | .resp status text =>
      if status ≠ 200 then pure (.bare text)
      else pure (.tup ⟨text, params, requestBody, desc, query⟩)
    | .str text => pure (.tup ⟨text, params, requestBody, desc, query⟩)
    | .other => Except.error PyErr.notImplementedError

/-! ## Documentation shaping: `Caller._prepare_api_docs` -/

/-- The token-budget truncation (caller.py lines 299-303): serialize,
encode, and when over 1500 tokens decode only the first 1500 back. -/
def shapeDocsText (enc : String → List Nat) (dec : List Nat → String)
    (dumped : String) : String :=
  if (enc dumped).length > 1500 then dec ((enc dumped).take 1500) else dumped

/-- The body of `_prepare_api_docs` after an endpoint name has been
chosen (caller.py lines 282-306): deep-copy the docs (pure values here),
flatten a JSON response schema to its properties, drop `responses` when
response hints are disabled, serialize and truncate to 1500 tokens, and
wrap in the docs header. -/
def prepareDocsFor (c : Collab) (st : CallerSt) (apiUrl endpointName : String) :
    Except PyErr (String × String) := do
  let docs0 ← (match dictGet st.docsByName endpointName with
    | none => Except.error PyErr.typeError
    | some d => pure d)
  let docs1 ← (do
    let hasResp ← pyIn "responses" docs0
    if hasResp then do
      let resp ← pyGetItem docs0 "responses"
      let hasContent ← pyIn "content" resp
      if hasContent then do
        let content ← pyGetItem resp "content"
        let hasAJ ← pyIn "application/json" content
        if hasAJ then do
          let aj ← pyGetItem content "application/json"
          let sch ← pyGetItem aj "schema"
          let props ← pyGetItem sch "properties"
          pySetItem docs0 "responses" props
        else do
          let hasAJ8 ← pyIn "application/json; charset=utf-8" content
          if hasAJ8 then do
            let aj ← pyGetItem content "application/json; charset=utf-8"
            let sch ← pyGetItem aj "schema"
            let props ← pyGetItem sch "properties"
            pySetItem docs0 "responses" props
          else pure docs0
      else pure docs0
    else pure docs0)
  let docs2 ← (do
    if st.withResponse then pure docs1
    else do
      let hasResp ← pyIn "responses" docs1
      if hasResp then pyPop docs1 "responses" else pure docs1)
  let tmpDocs := shapeDocsText c.encode c.decode (c.yamlDump docs2)
  pure ("== Docs for " ++ endpointName ++ " == \n" ++ tmpDocs ++ "\n", apiUrl)

/-- Embeds `Caller._prepare_api_docs` (caller.py lines 269-306): read the base
url, match the plan text; an unmatched plan returns two empty strings
(the `raise` after the `return` is dead code); a match commits to the
last (`[-1]`) candidate. -/
def prepare_api_docs (c : Collab) (st : CallerSt) (apiPlan : String) :
    Except PyErr (String × String) := do
  let apiUrl ← getServerUrl st.apiSpec
  match c.matchEndpoint apiPlan with
  | none => pure ("", "")
  | some ms =>
    match ms.getLast? with
    | none => Except.error PyErr.indexError
    | some nm => prepareDocsFor c st apiUrl nm

/-! ## `Caller._call` -/

/-- The tuple-unpacking assignment `response, params, request_body, desc,
query = self._get_response(...)` (caller.py line 342): a 5-tuple binds
componentwise; a plain string binds its characters when it has length 5
and raises `ValueError` otherwise (which is what the early
`return response.text` for non-200 responses feeds into it). -/
def unpackResponse : GetRespRet → Except PyErr RespTuple
  | .tup t => .ok t
  | .bare s =>
    match s.data with
    | [c0, c1, c2, c3, c4] =>
      .ok { responseText := String.mk [c0],
            params := some (.str (String.mk [c1])),
            requestBody := some (.str (String.mk [c2])),
            desc := .str (String.mk [c3]),
            query := some (.str (String.mk [c4])) }
    | _ => .error .valueError

/-- Embeds `response[:7500]` (caller.py line 345). -/
def truncateResponse (s : String) : String := String.mk (s.data.take 7500)

/-- Re-resolution of the actually called endpoint name (caller.py lines
350-352): `get_matched_endpoint(self.api_spec, called_endpoint_name)[0]`
— `None` is unsubscriptable (`TypeError`), an empty list raises
`IndexError`, otherwise the FIRST candidate is taken. -/
def resolveCalledName (c : Collab) (calledName0 : String) : Except PyErr String :=
  match c.matchEndpoint calledName0 with
  | none => .error .typeError
  | some ms =>
    match ms.head? with
    | none => .error .indexError
    | some nm => .ok nm

/-- The spotify search-type computation (caller.py lines 362-369): read
`params["type"]` when present, otherwise scan the `&`-separated url for
a `type=` fragment; when neither yields a value the later use of
`search_type` raises `NameError`. -/
def computeSearchType (params : Option JVal) (urlS : String) :
    Except PyErr String := do
  let fromParams ← (match params with
    | some p => do
      let b ← pyIn "type" p
      if b then do
        let v ← pyGetItem p "type"
        match v with
        | .str s => pure (some (s ++ "s"))
        | _ => Except.error PyErr.typeError
      else pure (none : Option String)
    | none => pure (none : Option String))
  match fromParams with
  | some s => pure s
  | none =>
    match (pySplit urlS "&").find? (fun p => containsL "type=".data p.data) with
    | some p => pure (pyLastField p "=" ++ "s")
    | none => Except.error PyErr.nameError

/-- The in-place narrowing of a search endpoint's response schema
(caller.py lines 370-376): keep only the property named by the search
type. -/
def narrowSearchDoc (doc : JVal) (searchType : String) : Except PyErr JVal := do
  let r ← pyGetItem doc "responses"
  let content ← pyGetItem r "content"
  let aj ← pyGetItem content "application/json"
  let sch ← pyGetItem aj "schema"
  let props ← pyGetItem sch "properties"
  let chosen ← pyGetItem props searchType
  setNested doc ["responses", "content", "application/json", "schema", "properties"]
    (JVal.obj [(searchType, chosen)])

/-- The inputs of one execution step. -/
structure CallInputs where
  apiPlan : String
  background : String

/-- Embeds `Caller._call` (caller.py lines 308-402).  Returns the step's result
text together with the Caller state after the step: the spotify search
narrowing mutates the shared documentation object through the alias
obtained from `endpoint_docs_by_name.get(...)`, which we model by
returning the updated mapping. -/
def caller_call (c : Collab) (st : CallerSt) (inp : CallInputs) :
    Except PyErr (String × CallerSt) := do
  let pr ← prepare_api_docs c st inp.apiPlan
  let apiDocForCaller := pr.1
  let apiUrl := pr.2
  let callerOutput := c.llmComplete apiUrl apiDocForCaller inp.apiPlan inp.background
  let parsed ← get_action_and_input callerOutput
  let action := parsed.1
  let actionInput := parsed.2
  if action = "DONE" then
    pure (actionInput, st)
  else do
    let ret ← get_response c action actionInput
    let t ← unpackResponse ret
    let response := truncateResponse t.responseText
    let dataJ ← (match c.jsonLoads actionInput with
      | none => Except.error PyErr.jsonDecodeError
      | some d => pure d)
    let urlV ← pyGetItem dataJ "url"
    let urlS ← (match urlV with
      | .str s => pure s
      | _ => Except.error PyErr.attributeError)
    let calledName0 := action ++ " " ++ pyReplace urlS apiUrl ""
    let calledName ← resolveCalledName c calledName0
    let apiPath := apiUrl ++ pyLastField calledName " "
    let apiDocForParser := dictGet st.docsByName calledName
    let ms2 ← (match c.matchEndpoint inp.apiPlan with
      | none => Except.error PyErr.typeError
      | some ms => pure ms)
    let endpointName ← (match ms2.head? with
      | none => Except.error PyErr.indexError
      | some nm => pure nm)
    let narrowed ← (
      if st.scenario = "spotify" ∧ endpointName = "GET /search" then do
        let searchType ← computeSearchType t.params urlS
        let oldDoc ← (match apiDocForParser with
          | none => Except.error PyErr.typeError
          | some d => pure d)
        let newDoc ← narrowSearchDoc oldDoc searchType
        pure (some newDoc, setAssoc st.docsByName calledName newDoc)
      else pure (apiDocForParser, st.docsByName))
    let paramsOrData : JVal := .obj [
      ("params", match t.params with
        | some p => if pyTruthy p then p else .str "No parameters"
        | none => .str "No parameters"),
      ("data", match t.requestBody with
        | some b => if pyTruthy b then b else .str "No request body"
        | none => .str "No request body")]
    let parsingRes := c.parserChain {
      apiPath := apiPath, apiDoc := narrowed.1,
      query := t.query, responseDescription := t.desc,
      apiParam := paramsOrData, json := response }
    let executionRes := callerOutput ++ "\nObservation: " ++ parsingRes
    pure (executionRes, { st with docsByName := narrowed.2 })

/-! ## Orchestrator: `RestGPT._call` (rest_gpt.py) -/

/-- The iteration/time budget configuration. -/
structure OrchCfg where
  maxIterations : Option Nat
  maxExecutionTime : Option Nat

/-- Embeds `RestGPT._should_continue` (rest_gpt.py lines 107-116). -/
def should_continue (cfg : OrchCfg) (iterations timeElapsed : Nat) : Bool :=
  (match cfg.maxIterations with
   | none => true
   | some m => decide (iterations < m))
  && (match cfg.maxExecutionTime with
      | none => true
      | some t => decide (timeElapsed < t))

/-- Embeds `RestGPT._should_end` (line 137-138): `re.search("Final Answer",
plan)`, i.e. substring occurrence. -/
def should_end (plan : String) : Bool := containsL "Final Answer".data plan.data

/-- Model of `re.match(r"No API call needed.(.*)", api_plan)` (line 173): the text
must start with the 18-character literal, the regex `.` consumes one
further non-newline character, and group 1 is the remainder of that
line. -/
def noApiCallMatch (s : String) : Option String :=
  if startsWithL "No API call needed".data s.data then
    match s.data.drop 18 with
    | [] => none
    | c :: rest =>
      if c = '\n' then none
      else some (String.mk (rest.takeWhile (fun x => x != '\n')))
  else none

/-- Embeds `RestGPT._get_api_selector_background` (lines 127-132). -/
def getApiSelectorBackground (h : List (String × String)) : String :=
  if h.length = 0 then "No background"
  else String.intercalate "\n" (h.map (fun p => p.2))

/-- The Orchestrator's collaborators: planner, API selector and Caller
are opaque result-producing services; `elapsedAfter k` is the wall-clock
reading `time.time() - start_time` taken at the end of loop pass `k`. -/
structure OrchCollab where
  planner : String → List (String × String) → String
  selector : String → String → String
  callerExec : String → String → String
  elapsedAfter : Nat → Nat

/-- The loop's run state.  `plan`, `history`, `iterations` and
`timeElapsed` are the Python locals; `selectorCalls`, `callerCalls` and
`endTested` are ghost observation records (how many selector/Caller
invocations happened, and which plan texts `_should_end` was applied
to, in order). -/
structure OState where
  plan : String
  history : List (String × String)
  iterations : Nat
  timeElapsed : Nat
  selectorCalls : Nat
  callerCalls : Nat
  endTested : List String

/-- The execution result of one loop pass for a given plan (rest_gpt.py
lines 166-191): a selector refusal's group 1 verbatim, otherwise the
Caller's result. -/
def stepResult (co : OrchCollab) (bg plan : String) : String :=
  match noApiCallMatch (co.selector plan bg) with
  | some g => g
  | none => co.callerExec (co.selector plan bg) bg

/-- Whether the pass for this plan goes through the Caller. -/
def stepUsedCaller (co : OrchCollab) (bg plan : String) : Bool :=
  (noApiCallMatch (co.selector plan bg)).isNone

/-- One full pass of the loop body before the termination test
(rest_gpt.py lines 166-201): select, execute (or take the refusal text),
append `(plan, execution_res)` to the history, re-plan on the updated
history. -/
def orchStep (co : OrchCollab) (query bg : String) (s : OState) : OState :=
  let res := stepResult co bg s.plan
  let hist := s.history ++ [(s.plan, res)]
  let plan2 := co.planner query hist
  { plan := plan2, history := hist,
    iterations := s.iterations, timeElapsed := s.timeElapsed,
    selectorCalls := s.selectorCalls + 1,
    callerCalls := s.callerCalls + (if stepUsedCaller co bg s.plan then 1 else 0),
    endTested := s.endTested ++ [plan2] }

/-- The `while self._should_continue(...)` loop (rest_gpt.py lines
164-249), fuel-indexed: on a pass, run the body, test the freshly
produced plan for the completion phrase (breaking before the counters
are advanced), otherwise advance `iterations` and `time_elapsed` and
continue.  `none` means the fuel ran out before the program returned. -/
def orchRun (co : OrchCollab) (cfg : OrchCfg) (query bg : String) :
    Nat → OState → Option (String × OState)
  | 0, _ => none
  | fuel + 1, s =>
    if should_continue cfg s.iterations s.timeElapsed then
      if should_end (orchStep co query bg s).plan then
        some ((orchStep co query bg s).plan, orchStep co query bg s)
      else orchRun co cfg query bg fuel
        { orchStep co query bg s with
            iterations := s.iterations + 1,
            timeElapsed := co.elapsedAfter s.iterations }
    else some (s.plan, s)

/-- The state just after the initial planner call (rest_gpt.py lines
147-159). -/
def initOState (co : OrchCollab) (query : String) : OState :=
  { plan := co.planner query [], history := [], iterations := 0,
    timeElapsed := 0, selectorCalls := 0, callerCalls := 0, endTested := [] }

/-- Embeds `RestGPT._call` (rest_gpt.py lines 140-251): initial planning on an
empty history, the selector background computed once before the loop
(from the then-empty history), then the bounded loop; the returned
value is `{"result": plan}`. -/
def rest_call (co : OrchCollab) (cfg : OrchCfg) (query : String) (fuel : Nat) :
    Option (String × OState) :=
  orchRun co cfg query (getApiSelectorBackground []) fuel (initOState co query)

/-! ## Concrete collaborator instantiations used as test vectors -/

/-- A concrete injective tokenizer for test vectors. -/
def encNat (s : String) : List Nat := s.data.map Char.toNat

/-- The matching detokenizer. -/
def decNat (l : List Nat) : String := String.mk (l.map Char.ofNat)

/-- Whether an embedded step completed without raising. -/
def exIsOk {α : Type} (e : Except PyErr α) : Bool :=
  match e with
  | .ok _ => true
  | .error _ => false

/-- C1 vector: the action input the completion emits. -/
def c1Ai : String := "\x7b\"url\": \"https://api.example.com/items\"\x7d"

/-- C1 vector: a one-endpoint spec. -/
def c1Spec : ApiSpec :=
  { servers := [.obj [("url", .str "https://api.example.com")]],
    endpoints := [("GET /items", none, .obj [])] }

/-- C1 vector: collaborators whose HTTP wrapper yields a
`requests.models.Response` with status 500. -/
def c1Collab : Collab :=
  { llmComplete := fun _ _ _ _ => "Operation: GET\nInput: " ++ c1Ai,
    http := fun _ => .resp 500 "Internal Server Error",
    jsonLoads := fun s =>
      if s = c1Ai then
        some (.obj [("url", .str "https://api.example.com/items"),
                    ("description", .str "the items"),
                    ("output_instructions", .str "list the ids")])
      else none,
    matchEndpoint := fun s =>
      if s = "fetch the items" then some ["GET /items"]
      else if s = "GET /items" then some ["GET /items"] else none,
    yamlDump := fun _ => "docs", encode := encNat, decode := decNat,
    parserChain := fun pin => pin.apiPath }

/-- C1 vector: the Caller state. -/
def c1St : CallerSt := mkCaller c1Spec "tmdb" false

/-- Claim C1 (code-bug evidence): on a parsed GET action whose HTTP call
yields a `requests.models.Response` with status 500 and body
`"Internal Server Error"`, the execute step raises `ValueError` instead
of routing the raw text into the response-interpretation path: the early
`return response.text` in `_get_response` (caller.py line 260) returns a
bare string where `_call` (line 342) unpacks a 5-tuple. -/
theorem c1_non200_response_raises_on_unpack :
    caller_call c1Collab c1St ⟨"fetch the items", "bg"⟩ = .error .valueError := rfl

/-- Claim C3 (code-bug evidence): the verb whitelist in
`_get_action_and_input` (caller.py line 207) accepts GET/POST/DELETE/PUT
but raises `NotImplementedError` for PATCH, although the module's own
prompt (lines 77, 83, 100) tells the completion it may use PATCH and the
spec lists five supported verbs. -/
theorem c3_patch_rejected_other_four_accepted :
    get_action_and_input "Operation: PATCH\nInput: \x7b\"url\": \"u\"\x7d"
      = .error .notImplementedError ∧
    get_action_and_input "Operation: GET\nInput: \x7b\"url\": \"u\"\x7d"
      = .ok ("GET", "\x7b\"url\": \"u\"\x7d") ∧
    get_action_and_input "Operation: POST\nInput: \x7b\"url\": \"u\"\x7d"
      = .ok ("POST", "\x7b\"url\": \"u\"\x7d") ∧
    get_action_and_input "Operation: PUT\nInput: \x7b\"url\": \"u\"\x7d"
      = .ok ("PUT", "\x7b\"url\": \"u\"\x7d") ∧
    get_action_and_input "Operation: DELETE\nInput: \x7b\"url\": \"u\"\x7d"
      = .ok ("DELETE", "\x7b\"url\": \"u\"\x7d") ∧
    get_action_and_input "Operation: FETCH\nInput: \x7b\"url\": \"u\"\x7d"
      = .error .notImplementedError :=
  ⟨rfl, rfl, rfl, rfl, rfl, rfl⟩

/-- C4 vector: the action input for an unmatched plan step. -/
def c4Ai : String := "\x7b\"url\": \"/pets\"\x7d"

/-- C4 vector: a one-endpoint spec. -/
def c4Spec : ApiSpec :=
  { servers := [.obj [("url", .str "https://api.example.com")]],
    endpoints := [("GET /pets", none, .obj [])] }

/-- C4 vector: collaborators for a plan step the matcher cannot
resolve, while the completion's concrete URL does resolve. -/
def c4Collab : Collab :=
  { llmComplete := fun _ _ _ _ => "Operation: GET\nInput: " ++ c4Ai,
    http := fun _ => .str "ok",
    jsonLoads := fun s =>
      if s = c4Ai then some (.obj [("url", .str "/pets")]) else none,
    matchEndpoint := fun s =>
      if s = "GET /pets" then some ["GET /pets"] else none,
    yamlDump := fun _ => "docs", encode := encNat, decode := decNat,
    parserChain := fun pin => pin.apiPath }

/-- C4 vector: the Caller state. -/
def c4St : CallerSt := mkCaller c4Spec "tmdb" false

/-- Claim C4 (code-bug evidence): for a plan step with no endpoint match,
`_prepare_api_docs` does return the non-fatal empty excerpt and empty
base url (caller.py line 273), but the step does not complete: the later
re-match of the plan (`get_matched_endpoint(self.api_spec, api_plan)`
followed by `[0]`, lines 358-359) subscripts `None` and raises
`TypeError`, so no resultText is produced. -/
theorem c4_unmatched_plan_step_raises :
    prepare_api_docs c4Collab c4St "mystery step" = .ok ("", "") ∧
    caller_call c4Collab c4St ⟨"mystery step", "bg"⟩ = .error .typeError :=
  ⟨rfl, rfl⟩

/-- C2 vector: the shared documentation object of the spotify search
endpoint. -/
def c2SearchDoc : JVal :=
  .obj [("responses", .obj [("content", .obj [("application/json",
    .obj [("schema", .obj [("properties",
      .obj [("tracks", .str "T"), ("albums", .str "A")])])])])])]

/-- C2 vector: the spec holding that object. -/
def c2Spec : ApiSpec :=
  { servers := [.obj [("url", .str "https://api.spotify.com/v1")]],
    endpoints := [("GET /search", none, c2SearchDoc)] }

/-- C2 vector: a spotify-scenario Caller. -/
def c2St : CallerSt := mkCaller c2Spec "spotify" false

/-- C2 vector: the action input for a typed search. -/
def c2Ai : String :=
  "\x7b\"url\": \"https://api.spotify.com/v1/search\", \"params\": \x7b\"type\": \"track\"\x7d\x7d"

/-- C2 vector: collaborators for one spotify `GET /search` step. -/
def c2Collab : Collab :=
  { llmComplete := fun _ _ _ _ => "Operation: GET\nInput: " ++ c2Ai,
    http := fun _ => .str "search results",
    jsonLoads := fun s =>
      if s = c2Ai then
        some (.obj [("url", .str "https://api.spotify.com/v1/search"),
                    ("params", .obj [("type", .str "track")])])
      else none,
    matchEndpoint := fun s =>
      if s = "search for the track" then some ["GET /search"]
      else if s = "GET /search" then some ["GET /search"] else none,
    yamlDump := fun _ => "docs", encode := encNat, decode := decNat,
    parserChain := fun pin => pin.apiPath }

/-- The property names stored under the search endpoint's response
schema in a Caller state (the observable the narrowing step changes). -/
def searchPropsKeys (st : CallerSt) : List String :=
  match dictGet st.docsByName "GET /search" with
  | none => []
  | some d =>
    match (do
      let r ← pyGetItem d "responses"
      let content ← pyGetItem r "content"
      let aj ← pyGetItem content "application/json"
      let sch ← pyGetItem aj "schema"
      pyGetItem sch "properties") with
    | .ok (.obj l) => l.map (fun p => p.1)
    | _ => []

/-- C2 vector: the Caller state after the step (the original state if
the step raised, which it does not). -/
def c2After : CallerSt :=
  match caller_call c2Collab c2St ⟨"search for the track", "bg"⟩ with
  | .ok p => p.2
  | .error _ => c2St

/-- Claim C2 is falsified at this input: a spotify `GET /search` step
completes and the shared Spec Index documentation for `GET /search` is
mutated — its response properties are narrowed from
`["tracks", "albums"]` to `["tracks"]` (caller.py lines 354, 370-376
operate on the shared object without a copy). -/
theorem c2_counterexample :
    exIsOk (caller_call c2Collab c2St ⟨"search for the track", "bg"⟩) = true ∧
    searchPropsKeys c2St = ["tracks", "albums"] ∧
    searchPropsKeys c2After = ["tracks"] :=
  ⟨rfl, rfl, rfl⟩

/-- Claim C2 (amended): an execution step leaves the Spec Index mapping
unchanged except in exactly one case — the scenario is spotify and the
plan re-match's first candidate is `GET /search`, where the
schema-narrowing step replaces the called endpoint's shared
documentation object in place. -/
theorem c2_amended (c : Collab) (st : CallerSt) (inp : CallInputs)
    (r : String) (st2 : CallerSt)
    (h : caller_call c st inp = .ok (r, st2)) :
    st2.apiSpec = st.apiSpec ∧ st2.scenario = st.scenario ∧
    st2.withResponse = st.withResponse ∧
    (st2 = st ∨ (st.scenario = "spotify" ∧
      ∃ ms, c.matchEndpoint inp.apiPlan = some ms ∧
        ms.head? = some "GET /search")) := by
  unfold caller_call at h
  simp only [bind, Except.bind, pure, Except.pure] at h
  split at h
  · simp at h
  split at h
  · simp at h
  split at h
  · -- DONE branch: the state is returned unchanged
    simp only [Except.ok.injEq, Prod.mk.injEq] at h
    obtain ⟨-, hst⟩ := h
    subst hst
    exact ⟨rfl, rfl, rfl, Or.inl rfl⟩
  -- non-DONE branch: peel the error-propagating binds
  split at h
  · simp at h
  split at h
  · simp at h
  split at h
  · simp at h
  split at h
  · simp at h
  split at h
  · simp at h
  split at h
  · simp at h
  split at h
  · simp at h
  rename_i ms2 hms2
  split at h
  · simp at h
  rename_i endpointName hend
  split at h
  · simp at h
  rename_i narrowed hnarrow
  simp only [Except.ok.injEq, Prod.mk.injEq] at h
  obtain ⟨-, hst⟩ := h
  subst hst
  refine ⟨rfl, rfl, rfl, ?_⟩
  split at hnarrow
  · -- the spotify narrowing branch mutates the mapping
    rename_i hcond
    split at hms2
    · simp at hms2
    rename_i ms hmsEq
    simp only [Except.ok.injEq] at hms2
    subst hms2
    split at hend
    · simp at hend
    rename_i nm hnmEq
    simp only [Except.ok.injEq] at hend
    refine Or.inr ⟨hcond.1, ms, hmsEq, ?_⟩
    rw [hnmEq, hend, hcond.2]
  · -- every other step leaves the mapping untouched
    simp only [Except.ok.injEq] at hnarrow
    subst hnarrow
    exact Or.inl rfl

/-- C2 vector: the result text of the spotify step. -/
def c2Res : String :=
  match caller_call c2Collab c2St ⟨"search for the track", "bg"⟩ with
  | .ok p => p.1
  | .error _ => ""

/-- Witness for `c2_amended` at the concrete spotify run. -/
theorem c2_amended_witness :
    c2After.apiSpec = c2St.apiSpec ∧ c2After.scenario = c2St.scenario ∧
    c2After.withResponse = c2St.withResponse ∧
    (c2After = c2St ∨ (c2St.scenario = "spotify" ∧
      ∃ ms, c2Collab.matchEndpoint "search for the track" = some ms ∧
        ms.head? = some "GET /search")) :=
  c2_amended c2Collab c2St ⟨"search for the track", "bg"⟩ c2Res c2After rfl

/-- C5 vector: spec with a generic and a more specific users endpoint. -/
def c5Spec : ApiSpec :=
  { servers := [.obj [("url", .str "https://api.example.com")]],
    endpoints := [("GET /users", none, .obj []),
                  ("GET /users/all", none, .obj [])] }

/-- C5 vector: the Caller state. -/
def c5St : CallerSt := mkCaller c5Spec "tmdb" false

/-- C5 vector: the action input calling the more specific endpoint. -/
def c5Ai : String := "\x7b\"url\": \"https://api.example.com/users/all\"\x7d"

/-- C5 vector: the completion text. -/
def c5LlmOut : String := "Operation: GET\nInput: " ++ c5Ai

/-- C5 vector: collaborators whose matcher ranks two candidates, the
most specific last, for both the plan and the called URL. -/
def c5Collab : Collab :=
  { llmComplete := fun _ _ _ _ => c5LlmOut,
    http := fun _ => .str "ok",
    jsonLoads := fun s =>
      if s = c5Ai then
        some (.obj [("url", .str "https://api.example.com/users/all")])
      else none,
    matchEndpoint := fun s =>
      if s = "get the users" then some ["GET /users", "GET /users/all"]
      else if s = "GET /users/all" then some ["GET /users", "GET /users/all"]
      else none,
    yamlDump := fun _ => "docs", encode := encNat, decode := decNat,
    parserChain := fun pin => pin.apiPath }

/-- Claim C5 is falsified at this input: the matcher's ranked list for
the re-resolution of the actually called URL is
`["GET /users", "GET /users/all"]` (most specific last), yet the step
uses the FIRST entry (`[0]`, caller.py line 352): the interpreter is
invoked with api path `.../users`, not the last entry's `.../users/all`. -/
theorem c5_counterexample :
    resolveCalledName c5Collab "GET /users/all" = .ok "GET /users" ∧
    ["GET /users", "GET /users/all"].getLast? = some "GET /users/all" ∧
    caller_call c5Collab c5St ⟨"get the users", "bg"⟩ =
      .ok (c5LlmOut ++ "\nObservation: https://api.example.com/users", c5St) ∧
    ("https://api.example.com/users" : String) ≠ "https://api.example.com/users/all" :=
  ⟨rfl, rfl, rfl, by decide⟩

/-- Claim C5 (amended): when the matcher returns a non-empty ranked
list, the documentation-excerpt preparation for the planned step uses
the LAST entry (caller.py line 281), while the re-resolution of the
actually called URL uses the FIRST entry (line 352). -/
theorem c5_amended (c : Collab) (st : CallerSt) (plan s : String)
    (ms ms2 : List String) (nm nm2 : String)
    (hm : c.matchEndpoint plan = some ms) (hl : ms.getLast? = some nm)
    (hm2 : c.matchEndpoint s = some ms2) (hh : ms2.head? = some nm2) :
    prepare_api_docs c st plan =
      (getServerUrl st.apiSpec >>= fun u => prepareDocsFor c st u nm) ∧
    resolveCalledName c s = .ok nm2 := by
  constructor
  · unfold prepare_api_docs
    simp only [hm, hl, bind]
  · simp [resolveCalledName, hm2, hh]

/-- Witness for `c5_amended` at the two-candidate vector. -/
theorem c5_amended_witness :
    prepare_api_docs c5Collab c5St "get the users" =
      (getServerUrl c5St.apiSpec >>= fun u =>
        prepareDocsFor c5Collab c5St u "GET /users/all") ∧
    resolveCalledName c5Collab "GET /users/all" = .ok "GET /users" :=
  c5_amended c5Collab c5St "get the users" "GET /users/all"
    ["GET /users", "GET /users/all"] ["GET /users", "GET /users/all"]
    "GET /users/all" "GET /users" rfl rfl rfl rfl

/-! ## C6: the completion marker and the DONE short-circuit -/

/-- The done-signal result text: everything after the last occurrence of
the completion marker, stripped. -/
def doneText (out : String) : String :=
  String.mk (pyStripL (afterLastL execResultMarker.data out.data))

/-- The parser's marker branch, in isolation. -/
theorem get_action_done (out : String)
    (hmark : containsL execResultMarker.data out.data = true) :
    get_action_and_input out = .ok ("DONE", doneText out) := by
  simp [get_action_and_input, hmark, doneText]

/-- The Caller's DONE short-circuit: when the completion contains the
marker, the step returns the marker text with the state unchanged. -/
theorem caller_call_done (c : Collab) (st : CallerSt) (inp : CallInputs)
    (docs url : String)
    (hprep : prepare_api_docs c st inp.apiPlan = .ok (docs, url))
    (hmark : containsL execResultMarker.data
      (c.llmComplete url docs inp.apiPlan inp.background).data = true) :
    caller_call c st inp =
      .ok (doneText (c.llmComplete url docs inp.apiPlan inp.background), st) := by
  unfold caller_call
  simp only [hprep, bind, Except.bind, get_action_done _ hmark]
  rfl

/-- Claim C6: a completion text containing the marker
`"Execution Result:"` always parses to a done signal whose result text
is the (stripped) text after the (last) marker, regardless of any
preceding text; and on a done signal the Caller returns that text as the
step result without issuing any HTTP request (the step's outcome does
not depend on the HTTP collaborator at all). -/
theorem c6_done_marker_short_circuits (c : Collab) (st : CallerSt)
    (inp : CallInputs) (docs url : String)
    (hprep : prepare_api_docs c st inp.apiPlan = .ok (docs, url))
    (hmark : containsL execResultMarker.data
      (c.llmComplete url docs inp.apiPlan inp.background).data = true) :
    get_action_and_input (c.llmComplete url docs inp.apiPlan inp.background) =
      .ok ("DONE", doneText (c.llmComplete url docs inp.apiPlan inp.background)) ∧
    caller_call c st inp =
      .ok (doneText (c.llmComplete url docs inp.apiPlan inp.background), st) ∧
    (∀ f, caller_call { c with http := f } st inp = caller_call c st inp) := by
  refine ⟨get_action_done _ hmark, caller_call_done c st inp docs url hprep hmark, ?_⟩
  intro f
  rw [caller_call_done c st inp docs url hprep hmark]
  exact caller_call_done { c with http := f } st inp docs url hprep hmark

/-- C6 vector: a completion that first looks like an action and then
reports the marker. -/
def c6Out : String := "Operation: GET\nInput: \x7b\x7d\nExecution Result:  all done "

/-- C6 vector: collaborators returning that completion. -/
def c6Collab : Collab :=
  { llmComplete := fun _ _ _ _ => c6Out,
    http := fun _ => .str "never used",
    jsonLoads := fun _ => none,
    matchEndpoint := fun s =>
      if s = "fetch the items" then some ["GET /items"] else none,
    yamlDump := fun _ => "docs", encode := encNat, decode := decNat,
    parserChain := fun pin => pin.apiPath }

/-- C6 vector: the Caller state. -/
def c6St : CallerSt := mkCaller c1Spec "tmdb" false

/-- Witness for `c6_done_marker_short_circuits` at the concrete vector:
the marker text wins over the preceding `Operation:`/`Input:` pair and
the step result is the stripped trailing text. -/
theorem c6_witness :
    get_action_and_input c6Out = .ok ("DONE", "all done") ∧
    caller_call c6Collab c6St ⟨"fetch the items", "bg"⟩ = .ok ("all done", c6St) := by
  have h := c6_done_marker_short_circuits c6Collab c6St ⟨"fetch the items", "bg"⟩
    "== Docs for GET /items == \ndocs\n" "https://api.example.com" rfl rfl
  exact ⟨h.1, h.2.1⟩

/-! ## C9: the two truncation budgets -/

/-- Claim C9: documentation shaping truncates by tokens to at most 1500,
dropping trailing tokens only (under the tokenizer round-trip contract
on the truncated prefix), and the response body handed to the Response
Interpreter is truncated to at most 7500 characters, dropping trailing
characters only. -/
theorem c9_truncation_budgets (enc : String → List Nat) (dec : List Nat → String)
    (d s : String)
    (hrt : enc (dec ((enc d).take 1500)) = (enc d).take 1500) :
    (enc (shapeDocsText enc dec d)).length ≤ 1500 ∧
    enc (shapeDocsText enc dec d) = (enc d).take (min 1500 (enc d).length) ∧
    (truncateResponse s).length ≤ 7500 ∧
    (truncateResponse s).data = s.data.take 7500 := by
  refine ⟨?_, ?_, ?_, rfl⟩
  · unfold shapeDocsText
    split
    · rw [hrt]
      simp [List.length_take]
    · next h =>
      simpa using Nat.le_of_not_lt h
  · unfold shapeDocsText
    split
    · next h =>
      rw [hrt, min_eq_left (Nat.le_of_lt h)]
    · next h =>
      rw [min_eq_right (Nat.le_of_not_lt h), List.take_length]
  · show (s.data.take 7500).length ≤ 7500
    simp [List.length_take]

/-- Witness for `c9_truncation_budgets` with the concrete character
tokenizer, for which the round-trip hypothesis holds definitionally. -/
theorem c9_witness :
    (encNat (shapeDocsText encNat decNat "doc")).length ≤ 1500 ∧
    encNat (shapeDocsText encNat decNat "doc") =
      (encNat "doc").take (min 1500 (encNat "doc").length) ∧
    (truncateResponse "resp").length ≤ 7500 ∧
    (truncateResponse "resp").data = "resp".data.take 7500 :=
  c9_truncation_budgets encNat decNat "doc" "resp" rfl

/-! ## Orchestrator loop invariant and the C7/C8/C10 properties -/

/-- The loop invariant: the current plan is the planner's output on the
recorded history; each loop pass appended exactly one history entry and
exactly one termination-test record; the `k`-th termination test was
applied to the planner output on the first `k+1` history entries (so the
tested plan was produced after that pass's append); and each history
entry holds the planner output on the entries before it together with
that plan's selector/Caller result. -/
def OInv (co : OrchCollab) (query bg : String) (s : OState) : Prop :=
  s.plan = co.planner query s.history ∧
  s.endTested.length = s.history.length ∧
  s.selectorCalls = s.history.length ∧
  (∀ k, k < s.endTested.length →
    s.endTested[k]? = some (co.planner query (s.history.take (k + 1)))) ∧
  (∀ k e, s.history[k]? = some e →
    e.1 = co.planner query (s.history.take k) ∧ e.2 = stepResult co bg e.1)

/-- One loop pass preserves the invariant. -/
theorem oinv_step (co : OrchCollab) (query bg : String) (s : OState)
    (h : OInv co query bg s) : OInv co query bg (orchStep co query bg s) := by
  obtain ⟨h1, h2, h3, h4, h5⟩ := h
  refine ⟨rfl, ?_, ?_, ?_, ?_⟩
  · simp [orchStep, h2]
  · simp [orchStep, h3]
  · intro k hk
    simp only [orchStep, List.length_append, List.length_cons, List.length_nil] at hk ⊢
    rcases Nat.lt_succ_iff_lt_or_eq.mp hk with hk' | hk'
    · rw [List.getElem?_append_left hk', h4 k hk',
        List.take_append_of_le_length (by omega)]
    · subst hk'
      rw [List.getElem?_concat_length, List.take_of_length_le (by simp [h2])]
  · intro k e he
    simp only [orchStep] at he ⊢
    rcases Nat.lt_trichotomy k s.history.length with hk | hk | hk
    · rw [List.getElem?_append_left hk] at he
      obtain ⟨he1, he2⟩ := h5 k e he
      exact ⟨by rw [List.take_append_of_le_length (Nat.le_of_lt hk)]; exact he1, he2⟩
    · subst hk
      rw [List.getElem?_concat_length] at he
      obtain rfl : (s.plan, stepResult co bg s.plan) = e := Option.some.inj he
      refine ⟨?_, rfl⟩
      rw [List.take_append_of_le_length (Nat.le_refl _), List.take_length]
      exact h1
    · rw [List.getElem?_eq_none (by simp; omega)] at he
      exact Option.noConfusion he

/-- Any completed run starting from an invariant state ends in an
invariant state, returns that state's plan, and never decreases the
ghost interaction counters. -/
theorem orchRun_spec (co : OrchCollab) (cfg : OrchCfg) (query bg : String) :
    ∀ (fuel : Nat) (s : OState) (r : String) (sF : OState),
    OInv co query bg s →
    orchRun co cfg query bg fuel s = some (r, sF) →
    OInv co query bg sF ∧ r = sF.plan ∧
    s.selectorCalls ≤ sF.selectorCalls ∧ s.callerCalls ≤ sF.callerCalls := by
  intro fuel
  induction fuel with
  | zero => intro s r sF _ h; simp [orchRun] at h
  | succ n ih =>
    intro s r sF hinv h
    unfold orchRun at h
    split at h
    · split at h
      · simp only [Option.some.injEq, Prod.mk.injEq] at h
        obtain ⟨hr, hsF⟩ := h
        subst hsF
        exact ⟨oinv_step co query bg s hinv, hr.symm, Nat.le_succ _,
          Nat.le_add_right _ _⟩
      · have hinv2 : OInv co query bg (orchStep co query bg s) :=
          oinv_step co query bg s hinv
        obtain ⟨hf, hr, hsel, hcall⟩ := ih _ r sF (by exact hinv2) h
        exact ⟨hf, hr, Nat.le_trans (Nat.le_succ _) hsel,
          Nat.le_trans (Nat.le_add_right _ _) hcall⟩
    · simp only [Option.some.injEq, Prod.mk.injEq] at h
      obtain ⟨hr, hsF⟩ := h
      subst hsF
      exact ⟨hinv, hr.symm, Nat.le_refl _, Nat.le_refl _⟩

/-- The initial state satisfies the invariant. -/
theorem oinv_init (co : OrchCollab) (query bg : String) :
    OInv co query bg (initOState co query) := by
  refine ⟨rfl, rfl, rfl, ?_, ?_⟩
  · intro k hk
    simp [initOState] at hk
  · intro k e he
    simp [initOState] at he

/-- Claim C7: in every completed Orchestrator run, the returned plan is
the planner's output on the full recorded history; each loop iteration
appended exactly one history entry (so entries are never removed or
reordered — each tested plan corresponds to a prefix of the final
history); the `k`-th termination test was applied to the plan produced
from the first `k+1` history entries, i.e. after that iteration's result
(whether from the Caller or from a selector refusal) had been appended;
and every history entry pairs a planner output with its own iteration's
execution result. -/
theorem c7_append_before_planning_and_termination (co : OrchCollab)
    (cfg : OrchCfg) (query : String) (fuel : Nat) (r : String) (sF : OState)
    (h : rest_call co cfg query fuel = some (r, sF)) :
    r = co.planner query sF.history ∧
    sF.endTested.length = sF.history.length ∧
    sF.selectorCalls = sF.history.length ∧
    (∀ k, k < sF.endTested.length →
      sF.endTested[k]? = some (co.planner query (sF.history.take (k + 1)))) ∧
    (∀ k e, sF.history[k]? = some e →
      e.1 = co.planner query (sF.history.take k) ∧
      e.2 = stepResult co (getApiSelectorBackground []) e.1) := by
  obtain ⟨hinv, hr, -, -⟩ :=
    orchRun_spec co cfg query (getApiSelectorBackground []) fuel
      (initOState co query) r sF (oinv_init co query _) h
  exact ⟨hr.trans hinv.1, hinv.2.1, hinv.2.2.1, hinv.2.2.2.1, hinv.2.2.2.2⟩

/-- C7/C10 vector: a planner that answers once and then emits the
completion phrase, a selector that always asks for a call, a Caller that
returns a fixed result. -/
def co7 : OrchCollab :=
  { planner := fun _ h => if h.length = 0 then "plan0" else "Final Answer: done",
    selector := fun _ _ => "call GET /x",
    callerExec := fun _ _ => "result1",
    elapsedAfter := fun _ => 1 }

/-- C7 vector: the completed run. -/
def c7Run : Option (String × OState) := rest_call co7 ⟨some 5, none⟩ "q" 3

/-- C7 vector: its final state. -/
def c7St2 : OState :=
  match c7Run with
  | some p => p.2
  | none => initOState co7 "q"

/-- C7 vector: its returned plan. -/
def c7R : String :=
  match c7Run with
  | some p => p.1
  | none => ""

/-- Witness for `c7_append_before_planning_and_termination` at the
concrete run. -/
theorem c7_witness :
    c7R = co7.planner "q" c7St2.history ∧
    c7St2.endTested.length = c7St2.history.length ∧
    c7St2.selectorCalls = c7St2.history.length := by
  have h := c7_append_before_planning_and_termination co7 ⟨some 5, none⟩ "q" 3
    c7R c7St2 rfl
  exact ⟨h.1, h.2.1, h.2.2.1⟩

/-- Claim C8: with `max_iterations = 0` the Orchestrator performs zero
Caller invocations (and zero selector invocations) and returns the first
planner output unchanged. -/
theorem c8_zero_budget_returns_first_plan (co : OrchCollab) (q : String)
    (t : Option Nat) (n : Nat) :
    rest_call co ⟨some 0, t⟩ q (n + 1) =
      some (co.planner q [], initOState co q) ∧
    (initOState co q).callerCalls = 0 ∧
    (initOState co q).selectorCalls = 0 := by
  refine ⟨?_, rfl, rfl⟩
  unfold rest_call orchRun
  simp [should_continue, initOState]

/-- Claim C10: whenever the budgets permit entering the loop
(`_should_continue(0, 0.0)` holds), a completed run performed at least
one selector invocation; every termination test was applied to a
planner output produced from a non-empty history (so the initial
planner output is never itself tested, even if it already contains the
completion phrase); the number of termination tests equals the number of
selector invocations; and if the first selector answer is not a refusal
then the Caller ran at least once. -/
theorem c10_first_plan_never_tested (co : OrchCollab) (cfg : OrchCfg)
    (query : String) (fuel : Nat) (r : String) (sF : OState)
    (hc : should_continue cfg 0 0 = true)
    (h : rest_call co cfg query fuel = some (r, sF)) :
    1 ≤ sF.selectorCalls ∧
    sF.endTested.length = sF.selectorCalls ∧
    (∀ k, k < sF.endTested.length →
      sF.endTested[k]? = some (co.planner query (sF.history.take (k + 1))) ∧
      sF.history.take (k + 1) ≠ []) ∧
    (noApiCallMatch (co.selector (co.planner query []) "No background") = none →
      1 ≤ sF.callerCalls) := by
  obtain ⟨n, rfl⟩ : ∃ n, fuel = n + 1 := by
    cases fuel with
    | zero => simp [rest_call, orchRun] at h
    | succ n => exact ⟨n, rfl⟩
  unfold rest_call orchRun at h
  rw [show should_continue cfg (initOState co query).iterations
      (initOState co query).timeElapsed = true from hc, if_pos rfl] at h
  have hinv2 : OInv co query (getApiSelectorBackground [])
      (orchStep co query (getApiSelectorBackground []) (initOState co query)) :=
    oinv_step co query _ _ (oinv_init co query _)
  have hcaller :
      noApiCallMatch (co.selector (co.planner query []) "No background") = none →
      1 ≤ (orchStep co query (getApiSelectorBackground [])
        (initOState co query)).callerCalls := by
    intro hno
    have hused : stepUsedCaller co (getApiSelectorBackground [])
        (co.planner query []) = true := by
      simp [stepUsedCaller, getApiSelectorBackground, hno]
    simp [orchStep, initOState, hused]
  have main : OInv co query (getApiSelectorBackground []) sF ∧
      1 ≤ sF.selectorCalls ∧
      (noApiCallMatch (co.selector (co.planner query []) "No background") = none →
        1 ≤ sF.callerCalls) := by
    split at h
    · simp only [Option.some.injEq, Prod.mk.injEq] at h
      obtain ⟨-, hsF⟩ := h
      subst hsF
      exact ⟨hinv2, Nat.le_refl _, hcaller⟩
    · obtain ⟨hf, -, hsel, hcall⟩ :=
        orchRun_spec co cfg query (getApiSelectorBackground []) n _ r sF
          (by exact hinv2) h
      refine ⟨hf, Nat.le_trans (Nat.le_refl _) ?_, fun hno =>
        Nat.le_trans (hcaller hno) hcall⟩
      exact hsel
  obtain ⟨hinvF, hsel1, hcallF⟩ := main
  refine ⟨hsel1, hinvF.2.1.trans hinvF.2.2.1.symm, ?_, hcallF⟩
  intro k hk
  refine ⟨hinvF.2.2.2.1 k hk, ?_⟩
  have hlen : 0 < (sF.history.take (k + 1)).length := by
    rw [List.length_take]
    have : k < sF.history.length := by
      rw [← hinvF.2.1]; exact hk
    omega
  exact List.ne_nil_of_length_pos hlen

/-- C10 vector: a planner whose very first output already contains the
completion phrase. -/
def co10 : OrchCollab :=
  { planner := fun _ h =>
      if h.length = 0 then "Final Answer right away" else "Final Answer: done",
    selector := fun _ _ => "call GET /x",
    callerExec := fun _ _ => "result1",
    elapsedAfter := fun _ => 1 }

/-- C10 vector: the completed run. -/
def c10Run : Option (String × OState) := rest_call co10 ⟨some 5, none⟩ "q" 3

/-- C10 vector: its final state. -/
def c10St2 : OState :=
  match c10Run with
  | some p => p.2
  | none => initOState co10 "q"

/-- C10 vector: its returned plan. -/
def c10R : String :=
  match c10Run with
  | some p => p.1
  | none => ""

/-- Witness for `c10_first_plan_never_tested`: even though the first
plan contains "Final Answer", a full selector + Caller iteration ran. -/
theorem c10_witness :
    1 ≤ c10St2.selectorCalls ∧
    c10St2.endTested.length = c10St2.selectorCalls ∧
    1 ≤ c10St2.callerCalls := by
  have h := c10_first_plan_never_tested co10 ⟨some 5, none⟩ "q" 3 c10R c10St2
    rfl rfl
  exact ⟨h.1, h.2.1, h.2.2.2 rfl⟩
